import Mathlib

/-!
Verification development for the EFS CSI driver controller
(`pkg/driver/controller.go`).

The controller's `CreateVolume`, `DeleteVolume` and
`ValidateVolumeCapabilities` handlers are shallowly embedded as pure Lean
functions.  External collaborators (the cloud API client, the gid
allocator, the mounter and the local file-system primitives) are supplied
through a `DriverEnv` record of response functions, and each handler
additionally returns the list of collaborator calls it performed, in
order, so that compensating actions, retries and reached/unreached steps
are observable in theorems.
-/

namespace EfsCsi

/-- Closed set of error kinds reported by the Cloud collaborator
(`cloud.ErrAccessDenied`, `cloud.ErrNotFound`, `cloud.ErrAlreadyExists`,
anything else). -/
inductive CloudErr
  | accessDenied
  | notFound
  | alreadyExists
  | other
deriving DecidableEq

/-- gRPC status codes used by the controller. -/
inductive Code
  | invalidArgument
  | unauthenticated
  | alreadyExists
  | internal
  | notFound
  | resourceExhausted
  | unimplemented
deriving DecidableEq

/-- A gRPC status error: a code together with its message. -/
structure GrpcError where
  code : Code
  msg : String
deriving DecidableEq

instance exceptDecEq {α β : Type} [DecidableEq α] [DecidableEq β] : DecidableEq (Except α β)
  | Except.ok x, Except.ok y =>
    match decEq x y with
    | isTrue h => isTrue (h ▸ rfl)
    | isFalse h => isFalse (fun hc => h (Except.ok.inj hc))
  | Except.ok _, Except.error _ => isFalse (fun hc => Except.noConfusion hc)
  | Except.error _, Except.ok _ => isFalse (fun hc => Except.noConfusion hc)
  | Except.error d, Except.error e =>
    match decEq d e with
    | isTrue h => isTrue (h ▸ rfl)
    | isFalse h => isFalse (fun hc => h (Except.error.inj hc))

/-- Result of describing an access point (`cloud.AccessPoint`): its
identifier and its root directory. -/
structure AccessPointDesc where
  accessPointId : String
  accessPointRootDir : String
deriving DecidableEq

/-- The options handed to `cloud.CreateAccessPoint`
(`cloud.AccessPointOptions`). -/
structure AccessPointOptions where
  capacityGiB : Int
  tags : List (String × String)
  fileSystemId : String
  directoryPerms : String
  gid : Int
  uid : Int
  directoryPath : String
deriving DecidableEq

/-- String constants from the top of `controller.go`.  (`RootDirPre` is
the source's root-directory name constant and `TempMountPath` the
source's temporary-mount-path constant.) -/
def AccessPointMode : String := "efs-ap"

/-- Parameter key `fileSystemId`. -/
def FsId : String := "fileSystemId"

/-- Parameter key `gidRangeStart`. -/
def GidMin : String := "gidRangeStart"

/-- Parameter key `gidRangeEnd`. -/
def GidMax : String := "gidRangeEnd"

/-- Parameter key `directoryPerms`. -/
def DirectoryPerms : String := "directoryPerms"

/-- Parameter key `basePath`. -/
def BasePath : String := "basePath"

/-- Parameter key `provisioningMode`. -/
def ProvisioningMode : String := "provisioningMode"

/-- Default lower bound of the gid range. -/
def DefaultGidMin : Int := 50000

/-- Default upper bound of the gid range. -/
def DefaultGidMax : Int := 7000000

/-- Fixed leading component of every access-point root-directory name. -/
def RootDirPre : String := "efs-csi-ap"

/-- Base directory for the ephemeral mounts used during delete. -/
def TempMountPath : String := "/var/lib/csi/pv"

/-- Default tag key. -/
def DefaultTagKey : String := "efs.csi.aws.com/cluster"

/-- Default tag value. -/
def DefaultTagValue : String := "true"

/-- Collaborator calls the controller can perform, recorded in order of
execution. -/
inductive Event
  | describeFileSystem (fsId : String)
  | getNextGid (fsId : String) (gidMin gidMax : Int)
  | releaseGid (fsId : String) (gid : Int)
  | createAccessPoint (name : String) (opts : AccessPointOptions)
  | describeAccessPoint (apId : String)
  | makeDir (path : String)
  | mount (source target fstype : String) (options : List String)
  | removeAll (path : String)
  | unmount (target : String)
  | removeFile (path : String)
  | deleteAccessPoint (apId : String)
deriving DecidableEq

/-- Environment of collaborator behaviours consumed by the handlers.
`describeFileSystem`, `deleteAccessPoint`, `makeDir`, `mount`,
`removeAll`, `unmount` and `removeFile` return `none` on success and the
error (its text, for the OS calls) otherwise.  `getNextGid` models the
gid allocator, whose error is propagated unchanged by `CreateVolume`;
`uuid` models the string returned by the uuid generator during this
call. -/
structure DriverEnv where
  tags : List (String × String)
  supportedModes : List Nat
  deleteAccessPointRootDir : Bool
  describeFileSystem : String → Option CloudErr
  getNextGid : String → Int → Int → Except GrpcError Int
  createAccessPoint : String → AccessPointOptions → Except CloudErr String
  describeAccessPoint : String → Except CloudErr AccessPointDesc
  deleteAccessPoint : String → Option CloudErr
  makeDir : String → Option String
  mount : String → String → String → List String → Option String
  removeAll : String → Option String
  unmount : String → Option String
  removeFile : String → Option String
  uuid : String

/-- Lookup of a key in a Go string map, modelled as a key-distinct
association list. -/
def lookupParam (ps : List (String × String)) (k : String) : Option String :=
  match ps with
  | [] => none
  | (k2, v) :: rest => if k2 = k then some v else lookupParam rest k

/-- Numeric value of a list of decimal digit characters. -/
def digitsToNat (ds : List Char) : Nat :=
  ds.foldl (fun acc c => acc * 10 + (c.toNat - 48)) 0

/-- Go's `strconv.Atoi`: an optional sign followed by at least one
decimal digit, whose value fits in a signed 64-bit integer; `none`
models a non-nil error. -/
def goAtoi (s : String) : Option Int :=
  let core : Int → List Char → Option Int := fun sign ds =>
    if ds = [] then none
    else if ds.all Char.isDigit then
      let v : Int := sign * (digitsToNat ds : Nat)
      if v < -(2 : Int) ^ 63 ∨ (2 : Int) ^ 63 ≤ v then none else some v
    else none
  match s.data with
  | '+' :: rest => core 1 rest
  | '-' :: rest => core (-1) rest
  | cs => core 1 cs

/-- Go's `strings.TrimSpace` restricted to ASCII whitespace: the leading
and trailing whitespace characters of the string are removed. -/
def trimSpace (s : String) : String :=
  String.mk (((s.data.dropWhile Char.isWhitespace).reverse.dropWhile Char.isWhitespace).reverse)

/-- Modelled from the spec: the Capability Validator
(`isValidVolumeCapabilities`, not part of the provided source) is a
stateless predicate checking every requested access mode against the
fixed supported set. -/
def isValidVolumeCapabilities (supportedModes : List Nat) (volCaps : List Nat) : Bool :=
  volCaps.all (fun c => supportedModes.contains c)

/-- Outcome of decoding a volume identifier. -/
inductive ParseResult
  | ok (fsId subPath apId : String)
  | invalidFormat
deriving DecidableEq

/-- Split a character list on the `:` delimiter. -/
def splitCols : List Char → List (List Char)
  | [] => [[]]
  | c :: rest =>
    match splitCols rest with
    | [] => [[]]
    | t :: ts => if c = ':' then [] :: t :: ts else (c :: t) :: ts

/-- Modelled from the spec: the Identifier Codec's `decode`
(`parseVolumeId`, not part of the provided source).  The identifier is a
`:`-delimited string of three segments `(fileSystemId, subPath,
accessPointId)`; decode fails when the three delimited segments are not
present or a mandatory segment (`fileSystemId`, `accessPointId`) is
empty. -/
def parseVolumeId (volId : String) : ParseResult :=
  match (splitCols volId.data).map (fun cs => String.mk cs) with
  | [fsId, subPath, apId] =>
    if fsId = "" ∨ apId = "" then ParseResult.invalidFormat
    else ParseResult.ok fsId subPath apId
  | _ => ParseResult.invalidFormat

/-- Insert a key/value into a Go string map modelled as an association
list, replacing any previous binding. -/
def mapInsert (m : List (String × String)) (k v : String) : List (String × String) :=
  m.filter (fun p => p.fst ≠ k) ++ [(k, v)]

/-- Overlay the bindings of `adds` onto `m` (Go `for k, v := range adds { m[k] = v }`). -/
def mapUnion (m : List (String × String)) (adds : List (String × String)) : List (String × String) :=
  adds.foldl (fun acc kv => mapInsert acc kv.fst kv.snd) m

/-- CSI `CreateVolumeRequest`: name, required capacity, the requested
access modes (one per volume capability) and the string parameter map. -/
structure CreateVolumeRequest where
  name : String
  capacityRequiredBytes : Int
  volumeCapabilities : List Nat
  parameters : List (String × String)
deriving DecidableEq

/-- CSI `Volume` as populated by `CreateVolume`. -/
structure Volume where
  capacityBytes : Int
  volumeId : String
  volumeContext : List (String × String)
deriving DecidableEq

/-- CSI `CreateVolumeResponse`. -/
structure CreateVolumeResponse where
  volume : Volume
deriving DecidableEq

/-- The request-derived values that survive `CreateVolume`'s validation
phase. -/
structure CreatePlan where
  fsIdVal : String
  gidMin : Int
  gidMax : Int
  basePath : String
  directoryPerms : String
deriving DecidableEq

/-- The `gidRangeStart`/`gidRangeEnd` parameter handling of
`CreateVolume` (`controller.go` lines 124-157): both present or both
absent; each present value must parse and satisfy `gidRangeStart > 0`,
`gidRangeEnd > gidRangeStart`; when both are absent the default range is
used.  The messages mirror the source (including its use of the
`gidRangeStart` key name in the missing-`gidRangeEnd` message). -/
def parseGidRange (params : List (String × String)) : Except GrpcError (Int × Int) :=
  match lookupParam params GidMin with
  | some v =>
    match goAtoi v with
    | none => Except.error ⟨Code.invalidArgument, "Failed to parse invalid " ++ GidMin ++ ": " ++ v⟩
    | some gMin =>
      if gMin ≤ 0 then Except.error ⟨Code.invalidArgument, GidMin ++ " must be greater than 0"⟩
      else
        match lookupParam params GidMax with
        | some w =>
          match goAtoi w with
          | none => Except.error ⟨Code.invalidArgument, "Failed to parse invalid " ++ GidMax ++ ": " ++ w⟩
          | some gMax =>
            if gMax ≤ gMin then
              Except.error ⟨Code.invalidArgument, GidMax ++ " must be greater than " ++ GidMin⟩
            else Except.ok (gMin, gMax)
        | none => Except.error ⟨Code.invalidArgument, "Missing " ++ GidMin ++ " parameter"⟩
  | none =>
    match lookupParam params GidMax with
    | some _ => Except.error ⟨Code.invalidArgument, "Missing " ++ GidMin ++ " parameter"⟩
    | none => Except.ok (DefaultGidMin, DefaultGidMax)

/-- The validation phase of `CreateVolume` (`controller.go` lines
56-165), in source order: non-empty name, non-empty supported
capability list, `provisioningMode` present and equal to `efs-ap`,
`fileSystemId` present and non-blank, then the gid-range parameters;
`basePath` and `directoryPerms` default to the empty string. -/
def validateCreate (env : DriverEnv) (req : CreateVolumeRequest) : Except GrpcError CreatePlan :=
  if req.name = "" then
    Except.error ⟨Code.invalidArgument, "Volume name not provided"⟩
  else if req.volumeCapabilities.isEmpty then
    Except.error ⟨Code.invalidArgument, "Volume capabilities not provided"⟩
  else if ¬ isValidVolumeCapabilities env.supportedModes req.volumeCapabilities then
    Except.error ⟨Code.invalidArgument, "Volume capabilities not supported"⟩
  else
    match lookupParam req.parameters ProvisioningMode with
    | none => Except.error ⟨Code.invalidArgument, "Missing " ++ ProvisioningMode ++ " parameter"⟩
    | some pm =>
      if pm ≠ AccessPointMode then
        Except.error ⟨Code.invalidArgument,
          "Provisioning mode " ++ pm ++ " is not supported. Only Access point provisioning: efs-ap is supported"⟩
      else
        match lookupParam req.parameters FsId with
        | none => Except.error ⟨Code.invalidArgument, "Missing " ++ FsId ++ " parameter"⟩
        | some fsIdVal =>
          if trimSpace fsIdVal = "" then
            Except.error ⟨Code.invalidArgument, "Parameter " ++ FsId ++ " cannot be empty"⟩
          else
            match parseGidRange req.parameters with
            | Except.error e => Except.error e
            | Except.ok (gMin, gMax) =>
              Except.ok
                { fsIdVal := fsIdVal
                  gidMin := gMin
                  gidMax := gMax
                  basePath := (lookupParam req.parameters BasePath).getD ""
                  directoryPerms := (lookupParam req.parameters DirectoryPerms).getD "" }

/-- The `cloud.AccessPointOptions` value `CreateVolume` hands to
`cloud.CreateAccessPoint` once the gid `gid` has been allocated
(`controller.go` lines 109-112 and 182-188): the echoed capacity, the
default tag overlaid with the driver tags, and `uid = gid = ` the
allocated gid, rooted at `basePath + "/" + RootDirPre + "-" + gid + "-"
+ uuid`. -/
def apOptions (env : DriverEnv) (req : CreateVolumeRequest) (plan : CreatePlan) (gid : Int) :
    AccessPointOptions :=
  { capacityGiB := req.capacityRequiredBytes
    tags := mapUnion [(DefaultTagKey, DefaultTagValue)] env.tags
    fileSystemId := plan.fsIdVal
    directoryPerms := plan.directoryPerms
    gid := gid
    uid := gid
    directoryPath := plan.basePath ++ "/" ++ (RootDirPre ++ "-" ++ toString gid ++ "-" ++ env.uuid) }

/-- The execution phase of `CreateVolume` (`controller.go` lines
167-208): describe the file system, allocate a gid, create the access
point (releasing the gid and classifying the cloud error on failure),
and assemble the response. -/
def createVolumeExec (env : DriverEnv) (req : CreateVolumeRequest) (plan : CreatePlan) :
    Except GrpcError CreateVolumeResponse × List Event :=
  let e1 : List Event := [Event.describeFileSystem plan.fsIdVal]
  match env.describeFileSystem plan.fsIdVal with
  | some CloudErr.accessDenied =>
    (Except.error ⟨Code.unauthenticated, "Access Denied. Please ensure you have the right AWS permissions"⟩, e1)
  | some CloudErr.notFound =>
    (Except.error ⟨Code.invalidArgument, "File System does not exist"⟩, e1)
  | some _ =>
    (Except.error ⟨Code.internal, "Failed to fetch File System info"⟩, e1)
  | none =>
    let e2 := e1 ++ [Event.getNextGid plan.fsIdVal plan.gidMin plan.gidMax]
    match env.getNextGid plan.fsIdVal plan.gidMin plan.gidMax with
    | Except.error err => (Except.error err, e2)
    | Except.ok gid =>
      let opts := apOptions env req plan gid
      let e3 := e2 ++ [Event.createAccessPoint req.name opts]
      match env.createAccessPoint req.name opts with
      | Except.error cerr =>
        let e4 := e3 ++ [Event.releaseGid plan.fsIdVal gid]
        match cerr with
        | CloudErr.accessDenied =>
          (Except.error ⟨Code.unauthenticated, "Access Denied. Please ensure you have the right AWS permissions"⟩, e4)
        | CloudErr.alreadyExists =>
          (Except.error ⟨Code.alreadyExists, "Access Point already exists"⟩, e4)
        | _ =>
          (Except.error ⟨Code.internal,
            "Failed to create Access point in File System " ++ plan.fsIdVal⟩, e4)
      | Except.ok apId =>
        (Except.ok ⟨⟨req.capacityRequiredBytes, plan.fsIdVal ++ "::" ++ apId, []⟩⟩, e3)

/-- `CreateVolume` (`controller.go` lines 56-209): validation followed
by execution, together with the trace of collaborator calls. -/
def createVolume (env : DriverEnv) (req : CreateVolumeRequest) :
    Except GrpcError CreateVolumeResponse × List Event :=
  match validateCreate env req with
  | Except.error e => (Except.error e, [])
  | Except.ok plan => createVolumeExec env req plan

/-- CSI `DeleteVolumeRequest`. -/
structure DeleteVolumeRequest where
  volumeId : String
deriving DecidableEq

/-- The final access-point deletion step of `DeleteVolume`
(`controller.go` lines 268-278): `NotFound` from the cloud is converted
to success. -/
def deleteVolumeDeleteAp (env : DriverEnv) (req : DeleteVolumeRequest) (accessPointId : String)
    (evs : List Event) : Except GrpcError Unit × List Event :=
  let es := evs ++ [Event.deleteAccessPoint accessPointId]
  match env.deleteAccessPoint accessPointId with
  | some CloudErr.accessDenied =>
    (Except.error ⟨Code.unauthenticated, "Access Denied. Please ensure you have the right AWS permissions"⟩, es)
  | some CloudErr.notFound => (Except.ok (), es)
  | some _ => (Except.error ⟨Code.internal, "Failed to Delete volume " ++ req.volumeId⟩, es)
  | none => (Except.ok (), es)

/-- `DeleteVolume` (`controller.go` lines 211-284).  The decode step is
supplied as the `parsed` argument because `parseVolumeId` is not part of
the provided source; `deleteVolume env (parseVolumeId req.volumeId) req`
is the composed handler.  An empty volume identifier is rejected before
decoding; decode failure returns success; an empty decoded access-point
identifier returns `NotFound`; otherwise, when the root-directory flag
is set, the access point is described (NotFound meaning already-deleted
success) and its root directory removed through the ephemeral mount
sequence, and finally the access point is deleted. -/
def deleteVolume (env : DriverEnv) (parsed : ParseResult) (req : DeleteVolumeRequest) :
    Except GrpcError Unit × List Event :=
  if req.volumeId = "" then
    (Except.error ⟨Code.invalidArgument, "Volume ID not provided"⟩, [])
  else
    match parsed with
    | ParseResult.invalidFormat => (Except.ok (), [])
    | ParseResult.ok fileSystemId _subPath accessPointId =>
      if accessPointId = "" then
        (Except.error ⟨Code.notFound, "Failed to find access point for volume: " ++ req.volumeId⟩, [])
      else if env.deleteAccessPointRootDir then
        let e1 : List Event := [Event.describeAccessPoint accessPointId]
        match env.describeAccessPoint accessPointId with
        | Except.error CloudErr.accessDenied =>
          (Except.error ⟨Code.unauthenticated, "Access Denied. Please ensure you have the right AWS permissions"⟩, e1)
        | Except.error CloudErr.notFound => (Except.ok (), e1)
        | Except.error _ =>
          (Except.error ⟨Code.internal, "Could not get describe Access Point: " ++ accessPointId⟩, e1)
        | Except.ok accessPoint =>
          let target := TempMountPath ++ "/" ++ accessPointId
          let e2 := e1 ++ [Event.makeDir target]
          match env.makeDir target with
          | some err => (Except.error ⟨Code.internal, "Could not create dir " ++ target ++ ": " ++ err⟩, e2)
          | none =>
            let e3 := e2 ++ [Event.mount fileSystemId target "efs" ["tls"]]
            match env.mount fileSystemId target "efs" ["tls"] with
            | some err =>
              let e4 := e3 ++ [Event.removeFile target]
              (Except.error ⟨Code.internal,
                "Could not mount " ++ fileSystemId ++ " at " ++ target ++ ": " ++ err⟩, e4)
            | none =>
              let e5 := e3 ++ [Event.removeAll (target ++ accessPoint.accessPointRootDir)]
              match env.removeAll (target ++ accessPoint.accessPointRootDir) with
              | some err =>
                (Except.error ⟨Code.internal,
                  "Could not delete access point root directory " ++ accessPoint.accessPointRootDir ++ ": " ++ err⟩, e5)
              | none =>
                let e6 := e5 ++ [Event.unmount target]
                match env.unmount target with
                | some err =>
                  (Except.error ⟨Code.internal, "Could not unmount " ++ target ++ ": " ++ err⟩, e6)
                | none =>
                  let e7 := e6 ++ [Event.removeAll target]
                  match env.removeAll target with
                  | some err =>
                    (Except.error ⟨Code.internal, "Could not delete " ++ target ++ ": " ++ err⟩, e7)
                  | none => deleteVolumeDeleteAp env req accessPointId e7
      else
        deleteVolumeDeleteAp env req accessPointId []

/-- CSI `ValidateVolumeCapabilitiesRequest`. -/
structure ValidateVolumeCapabilitiesRequest where
  volumeId : String
  volumeCapabilities : List Nat
deriving DecidableEq

/-- CSI `ValidateVolumeCapabilitiesResponse`: `confirmed` carries the
requested capabilities when they are all supported. -/
structure ValidateVolumeCapabilitiesResponse where
  confirmed : Option (List Nat)
deriving DecidableEq

/-- `ValidateVolumeCapabilities` (`controller.go` lines 294-318), with
the decode step supplied as the `parsed` argument as for
`deleteVolume`. -/
def validateVolumeCapabilities (env : DriverEnv) (parsed : ParseResult)
    (req : ValidateVolumeCapabilitiesRequest) :
    Except GrpcError ValidateVolumeCapabilitiesResponse :=
  if req.volumeId = "" then
    Except.error ⟨Code.invalidArgument, "Volume ID not provided"⟩
  else if req.volumeCapabilities.isEmpty then
    Except.error ⟨Code.invalidArgument, "Volume capabilities not provided"⟩
  else
    match parsed with
    | ParseResult.invalidFormat => Except.error ⟨Code.notFound, "Volume not found"⟩
    | ParseResult.ok _ _ _ =>
      if isValidVolumeCapabilities env.supportedModes req.volumeCapabilities then
        Except.ok ⟨some req.volumeCapabilities⟩
      else
        Except.ok ⟨none⟩

/-- Code (if any) with which a handler result failed. -/
def resultCode {α : Type} : Except GrpcError α → Option Code
  | Except.error e => some e.code
  | Except.ok _ => none

/-- The `CreatePlan` produced by a `CreateVolume` request whose
validation passes with file-system id `fs` and resolved gid range
`[gMin, gMax]`. -/
def planFor (req : CreateVolumeRequest) (fs : String) (gMin gMax : Int) : CreatePlan :=
  { fsIdVal := fs
    gidMin := gMin
    gidMax := gMax
    basePath := (lookupParam req.parameters BasePath).getD ""
    directoryPerms := (lookupParam req.parameters DirectoryPerms).getD "" }

theorem splitCols_ne_nil (cs : List Char) : splitCols cs ≠ [] := by
  induction cs with
  | nil => simp [splitCols]
  | cons c rest ih =>
    simp only [splitCols]
    cases h : splitCols rest with
    | nil => exact absurd h ih
    | cons t ts => by_cases hc : c = ':' <;> simp [hc]

theorem splitCols_no_colon (cs : List Char) (h : ':' ∉ cs) : splitCols cs = [cs] := by
  induction cs with
  | nil => rfl
  | cons c rest ih =>
    have hc : c ≠ ':' := fun e => h (by simp [e])
    have hr : ':' ∉ rest := fun m => h (List.mem_cons_of_mem _ m)
    simp [splitCols, ih hr, hc]

theorem splitCols_append (a b : List Char) (ha : ':' ∉ a) :
    splitCols (a ++ ':' :: b) = a :: splitCols b := by
  induction a with
  | nil =>
    simp only [List.nil_append, splitCols]
    cases h : splitCols b with
    | nil => exact absurd h (splitCols_ne_nil b)
    | cons t ts => simp
  | cons c a2 ih =>
    have hc : c ≠ ':' := fun e => ha (by simp [e])
    have ha2 : ':' ∉ a2 := fun m => ha (List.mem_cons_of_mem _ m)
    simp [splitCols, ih ha2, hc]

theorem string_mk_data (s : String) : String.mk s.data = s := by
  cases s
  rfl

theorem string_ne_empty_data (s : String) (h : s ≠ "") : s.data ≠ [] := by
  intro hd
  exact h (by cases s; simp_all)

/-- Round-trip of the Identifier Codec on the identifiers `CreateVolume`
produces: for non-empty, delimiter-free `fs` and `ap`, the encoded
identifier with empty subpath decodes back to `(fs, "", ap)`. -/
theorem parseVolumeId_encode (fs ap : String) (hfs : fs ≠ "") (hap : ap ≠ "")
    (hfsc : ':' ∉ fs.data) (hapc : ':' ∉ ap.data) :
    parseVolumeId (fs ++ "::" ++ ap) = ParseResult.ok fs "" ap := by
  have hdata : (fs ++ "::" ++ ap).data = fs.data ++ ':' :: ':' :: ap.data := by
    simp [String.data_append]
  have hsplit : splitCols (fs ++ "::" ++ ap).data = [fs.data, [], ap.data] := by
    rw [hdata, splitCols_append fs.data (':' :: ap.data) hfsc]
    have : splitCols (':' :: ap.data) = [] :: splitCols ap.data := by
      have := splitCols_append [] ap.data (by simp)
      simpa using this
    rw [this, splitCols_no_colon ap.data hapc]
  unfold parseVolumeId
  rw [hsplit]
  simp [string_mk_data, hfs, hap]

/-- Forward evaluation of `CreateVolume`'s validation phase: a request
passing every check in source order yields the plan `planFor req fs gMin
gMax`. -/
theorem validateCreate_eq (env : DriverEnv) (req : CreateVolumeRequest) (fs : String)
    (gMin gMax : Int)
    (hname : req.name ≠ "") (hcaps : req.volumeCapabilities ≠ [])
    (hvalid : isValidVolumeCapabilities env.supportedModes req.volumeCapabilities = true)
    (hpm : lookupParam req.parameters ProvisioningMode = some AccessPointMode)
    (hfs : lookupParam req.parameters FsId = some fs)
    (hft : trimSpace fs ≠ "")
    (hgid : parseGidRange req.parameters = Except.ok (gMin, gMax)) :
    validateCreate env req = Except.ok (planFor req fs gMin gMax) := by
  simp [validateCreate, planFor, hname, hcaps, hvalid, hpm, hfs, hft, hgid]

/-- A collaborator environment in which every call succeeds: root-dir
deletion disabled, the file system exists, gid 50000 is allocated, the
access point `ap-1` is created/described/deleted successfully. -/
def envOk : DriverEnv :=
  { tags := []
    supportedModes := [0]
    deleteAccessPointRootDir := false
    describeFileSystem := fun _ => none
    getNextGid := fun _ _ _ => Except.ok 50000
    createAccessPoint := fun _ _ => Except.ok "ap-1"
    describeAccessPoint := fun _ => Except.ok ⟨"ap-1", "/rd"⟩
    deleteAccessPoint := fun _ => none
    makeDir := fun _ => none
    mount := fun _ _ _ _ => none
    removeAll := fun _ => none
    unmount := fun _ => none
    removeFile := fun _ => none
    uuid := "u1" }

/-- Environment whose cloud reports NotFound at describe-access-point
and delete-access-point, with root-dir deletion enabled. -/
def envNfFlag : DriverEnv :=
  { envOk with
    deleteAccessPointRootDir := true
    describeAccessPoint := fun _ => Except.error CloudErr.notFound
    deleteAccessPoint := fun _ => some CloudErr.notFound }

/-- Environment whose cloud reports NotFound at delete-access-point,
with root-dir deletion disabled. -/
def envDelNf : DriverEnv :=
  { envOk with deleteAccessPoint := fun _ => some CloudErr.notFound }

/-- Environment with root-dir deletion enabled, a successful cleanup
sequence, and NotFound from delete-access-point. -/
def envDelNfFlag : DriverEnv :=
  { envOk with
    deleteAccessPointRootDir := true
    deleteAccessPoint := fun _ => some CloudErr.notFound }

/-- C1: DeleteVolume is idempotent for already-gone volumes.  Whenever
the decode step of a non-empty volume identifier fails, DeleteVolume
returns success with no collaborator call; and for a decoded non-empty
access-point identifier, a Cloud NotFound at the describe step (with
root-directory deletion enabled) or at the delete step (with the flag
off, or with the flag on after a successful cleanup sequence) also
yields success. -/
theorem C1_deleteVolume_success_when_gone (env : DriverEnv) (req : DeleteVolumeRequest)
    (fs sub ap : String) (desc : AccessPointDesc)
    (hvol : req.volumeId ≠ "") (hap : ap ≠ "") :
    (deleteVolume env ParseResult.invalidFormat req = (Except.ok (), [])) ∧
    (env.deleteAccessPointRootDir = true →
      env.describeAccessPoint ap = Except.error CloudErr.notFound →
      (deleteVolume env (ParseResult.ok fs sub ap) req).1 = Except.ok ()) ∧
    (env.deleteAccessPointRootDir = false →
      env.deleteAccessPoint ap = some CloudErr.notFound →
      (deleteVolume env (ParseResult.ok fs sub ap) req).1 = Except.ok ()) ∧
    (env.deleteAccessPointRootDir = true →
      env.describeAccessPoint ap = Except.ok desc →
      env.makeDir (TempMountPath ++ "/" ++ ap) = none →
      env.mount fs (TempMountPath ++ "/" ++ ap) "efs" ["tls"] = none →
      env.removeAll (TempMountPath ++ "/" ++ ap ++ desc.accessPointRootDir) = none →
      env.unmount (TempMountPath ++ "/" ++ ap) = none →
      env.removeAll (TempMountPath ++ "/" ++ ap) = none →
      env.deleteAccessPoint ap = some CloudErr.notFound →
      (deleteVolume env (ParseResult.ok fs sub ap) req).1 = Except.ok ()) := by
  refine ⟨?_, ?_, ?_, ?_⟩
  · simp [deleteVolume, hvol]
  · intro hflag hdesc
    simp [deleteVolume, hvol, hap, hflag, hdesc]
  · intro hflag hdel
    simp [deleteVolume, deleteVolumeDeleteAp, hvol, hap, hflag, hdel]
  · intro hflag hdesc hmk hmt hra hum hra2 hdel
    simp [deleteVolume, deleteVolumeDeleteAp, hvol, hap, hflag, hdesc, hmk, hmt, hra, hum, hra2, hdel]

/-- Witness for C1 at concrete inputs: an undecodable identifier, and
NotFound at describe (flag on), at delete (flag off) and at delete after
a successful cleanup (flag on). -/
theorem C1_witness :
    (deleteVolume envNfFlag ParseResult.invalidFormat ⟨"bad-id"⟩ = (Except.ok (), [])) ∧
    ((deleteVolume envNfFlag (ParseResult.ok "fs-1" "" "ap-1") ⟨"fs-1::ap-1"⟩).1 = Except.ok ()) ∧
    ((deleteVolume envDelNf (ParseResult.ok "fs-1" "" "ap-1") ⟨"fs-1::ap-1"⟩).1 = Except.ok ()) ∧
    ((deleteVolume envDelNfFlag (ParseResult.ok "fs-1" "" "ap-1") ⟨"fs-1::ap-1"⟩).1 = Except.ok ()) :=
  ⟨(C1_deleteVolume_success_when_gone envNfFlag ⟨"bad-id"⟩ "fs-1" "" "ap-1" ⟨"ap-1", "/rd"⟩
      (by decide) (by decide)).1,
   (C1_deleteVolume_success_when_gone envNfFlag ⟨"fs-1::ap-1"⟩ "fs-1" "" "ap-1" ⟨"ap-1", "/rd"⟩
      (by decide) (by decide)).2.1 rfl rfl,
   (C1_deleteVolume_success_when_gone envDelNf ⟨"fs-1::ap-1"⟩ "fs-1" "" "ap-1" ⟨"ap-1", "/rd"⟩
      (by decide) (by decide)).2.2.1 rfl rfl,
   (C1_deleteVolume_success_when_gone envDelNfFlag ⟨"fs-1::ap-1"⟩ "fs-1" "" "ap-1" ⟨"ap-1", "/rd"⟩
      (by decide) (by decide)).2.2.2 rfl rfl rfl rfl rfl rfl rfl rfl⟩

/-- C5: a DeleteVolume request whose identifier decodes with an empty
access-point identifier returns a NotFound error and performs no Cloud
or Mount collaborator call. -/
theorem C5_deleteVolume_empty_ap_notFound (env : DriverEnv) (req : DeleteVolumeRequest)
    (fs sub : String) (hvol : req.volumeId ≠ "") :
    deleteVolume env (ParseResult.ok fs sub "") req =
      (Except.error ⟨Code.notFound, "Failed to find access point for volume: " ++ req.volumeId⟩, []) := by
  simp [deleteVolume, hvol]

/-- Witness for C5 at the identifier `fs-1::` decoded as `("fs-1", "",
"")`. -/
theorem C5_witness :
    deleteVolume envOk (ParseResult.ok "fs-1" "" "") ⟨"fs-1::"⟩ =
      (Except.error ⟨Code.notFound, "Failed to find access point for volume: " ++ "fs-1::"⟩, []) :=
  C5_deleteVolume_empty_ap_notFound envOk ⟨"fs-1::"⟩ "fs-1" "" (by decide)

/-- C9: a DeleteVolume request with an empty volume identifier is
rejected with InvalidArgument before the decode step, whatever the
decode outcome would have been. -/
theorem C9_deleteVolume_empty_id_invalidArgument (env : DriverEnv) (parsed : ParseResult) :
    deleteVolume env parsed ⟨""⟩ =
      (Except.error ⟨Code.invalidArgument, "Volume ID not provided"⟩, []) := by
  simp [deleteVolume]

/-- Environment for the root-directory cleanup: mount succeeds and the
recursive removal of the access point's root subdirectory fails. -/
def envRemoveFails : DriverEnv :=
  { envOk with
    deleteAccessPointRootDir := true
    describeAccessPoint := fun _ => Except.ok ⟨"ap-1", "/root-a"⟩
    removeAll := fun p => if p = "/var/lib/csi/pv/ap-1/root-a" then some "boom" else none }

/-- C6: evaluation of `DeleteVolume` at the failing input.  With
root-directory deletion enabled, the describe, directory-creation and
mount steps succeeding, and the recursive removal of the access point's
root subdirectory failing, DeleteVolume returns an Internal error
without ever calling unmount or removing the ephemeral directory: the
successful mount is not released on this exit path. -/
theorem C6_removeAll_failure_leaks_mount :
    deleteVolume envRemoveFails (ParseResult.ok "fs-1" "" "ap-1") ⟨"fs-1::ap-1"⟩ =
      (Except.error ⟨Code.internal,
        "Could not delete access point root directory /root-a: boom"⟩,
       [Event.describeAccessPoint "ap-1", Event.makeDir "/var/lib/csi/pv/ap-1",
        Event.mount "fs-1" "/var/lib/csi/pv/ap-1" "efs" ["tls"],
        Event.removeAll "/var/lib/csi/pv/ap-1/root-a"]) ∧
    Event.mount "fs-1" "/var/lib/csi/pv/ap-1" "efs" ["tls"] ∈
      (deleteVolume envRemoveFails (ParseResult.ok "fs-1" "" "ap-1") ⟨"fs-1::ap-1"⟩).2 ∧
    Event.unmount "/var/lib/csi/pv/ap-1" ∉
      (deleteVolume envRemoveFails (ParseResult.ok "fs-1" "" "ap-1") ⟨"fs-1::ap-1"⟩).2 := by
  refine ⟨by decide, by decide, by decide⟩

@[simp] theorem planFor_fsIdVal (req : CreateVolumeRequest) (fs : String) (a b : Int) :
    (planFor req fs a b).fsIdVal = fs := rfl

@[simp] theorem planFor_gidMin (req : CreateVolumeRequest) (fs : String) (a b : Int) :
    (planFor req fs a b).gidMin = a := rfl

@[simp] theorem planFor_gidMax (req : CreateVolumeRequest) (fs : String) (a b : Int) :
    (planFor req fs a b).gidMax = b := rfl

@[simp] theorem planFor_basePath (req : CreateVolumeRequest) (fs : String) (a b : Int) :
    (planFor req fs a b).basePath = (lookupParam req.parameters BasePath).getD "" := rfl

/-- C7: CreateVolume validates in the fixed source order — non-empty
name, non-empty capability list, all capabilities supported,
`provisioningMode` present and equal to `efs-ap`, `fileSystemId`
present and non-blank — each failing check returning InvalidArgument
with its own message and an empty collaborator trace, so no later check
or collaborator call is reached. -/
theorem C7_createVolume_validation_order (env : DriverEnv) (req : CreateVolumeRequest)
    (pm f : String) :
    (req.name = "" →
      createVolume env req = (Except.error ⟨Code.invalidArgument, "Volume name not provided"⟩, [])) ∧
    (req.name ≠ "" → req.volumeCapabilities = [] →
      createVolume env req = (Except.error ⟨Code.invalidArgument, "Volume capabilities not provided"⟩, [])) ∧
    (req.name ≠ "" → req.volumeCapabilities ≠ [] →
      isValidVolumeCapabilities env.supportedModes req.volumeCapabilities = false →
      createVolume env req = (Except.error ⟨Code.invalidArgument, "Volume capabilities not supported"⟩, [])) ∧
    (req.name ≠ "" → req.volumeCapabilities ≠ [] →
      isValidVolumeCapabilities env.supportedModes req.volumeCapabilities = true →
      lookupParam req.parameters ProvisioningMode = none →
      createVolume env req =
        (Except.error ⟨Code.invalidArgument, "Missing " ++ ProvisioningMode ++ " parameter"⟩, [])) ∧
    (req.name ≠ "" → req.volumeCapabilities ≠ [] →
      isValidVolumeCapabilities env.supportedModes req.volumeCapabilities = true →
      lookupParam req.parameters ProvisioningMode = some pm → pm ≠ AccessPointMode →
      createVolume env req =
        (Except.error ⟨Code.invalidArgument,
          "Provisioning mode " ++ pm ++ " is not supported. Only Access point provisioning: efs-ap is supported"⟩, [])) ∧
    (req.name ≠ "" → req.volumeCapabilities ≠ [] →
      isValidVolumeCapabilities env.supportedModes req.volumeCapabilities = true →
      lookupParam req.parameters ProvisioningMode = some AccessPointMode →
      lookupParam req.parameters FsId = none →
      createVolume env req =
        (Except.error ⟨Code.invalidArgument, "Missing " ++ FsId ++ " parameter"⟩, [])) ∧
    (req.name ≠ "" → req.volumeCapabilities ≠ [] →
      isValidVolumeCapabilities env.supportedModes req.volumeCapabilities = true →
      lookupParam req.parameters ProvisioningMode = some AccessPointMode →
      lookupParam req.parameters FsId = some f → trimSpace f = "" →
      createVolume env req =
        (Except.error ⟨Code.invalidArgument, "Parameter " ++ FsId ++ " cannot be empty"⟩, [])) := by
  refine ⟨?_, ?_, ?_, ?_, ?_, ?_, ?_⟩
  · intro h
    simp [createVolume, validateCreate, h]
  · intro h1 h2
    simp [createVolume, validateCreate, h1, h2]
  · intro h1 h2 h3
    simp [createVolume, validateCreate, h1, h2, h3]
  · intro h1 h2 h3 h4
    simp [createVolume, validateCreate, h1, h2, h3, h4]
  · intro h1 h2 h3 h4 h5
    simp [createVolume, validateCreate, h1, h2, h3, h4, h5]
  · intro h1 h2 h3 h4 h5
    simp [createVolume, validateCreate, h1, h2, h3, h4, h5]
  · intro h1 h2 h3 h4 h5 h6
    simp [createVolume, validateCreate, h1, h2, h3, h4, h5, h6]

/-- Request fixtures exercising each CreateVolume validation branch. -/
def reqNoName : CreateVolumeRequest := ⟨"", 100, [0], []⟩

/-- Request with a name but no capability. -/
def reqNoCaps : CreateVolumeRequest := ⟨"v1", 100, [], []⟩

/-- Request with an unsupported capability (only mode 0 is supported in
`envOk`). -/
def reqBadCaps : CreateVolumeRequest := ⟨"v1", 100, [5], []⟩

/-- Request with valid capabilities and no parameters. -/
def reqNoPm : CreateVolumeRequest := ⟨"v1", 100, [0], []⟩

/-- Request with an unsupported provisioning mode. -/
def reqBadPm : CreateVolumeRequest := ⟨"v1", 100, [0], [(ProvisioningMode, "efs")]⟩

/-- Request with a valid provisioning mode and no file-system id. -/
def reqNoFs : CreateVolumeRequest := ⟨"v1", 100, [0], [(ProvisioningMode, "efs-ap")]⟩

/-- Request with a blank file-system id. -/
def reqBlankFs : CreateVolumeRequest :=
  ⟨"v1", 100, [0], [(ProvisioningMode, "efs-ap"), (FsId, "  ")]⟩

/-- Witness for C7: each validation branch exercised on a concrete
request against `envOk`. -/
theorem C7_witness :
    (createVolume envOk reqNoName =
      (Except.error ⟨Code.invalidArgument, "Volume name not provided"⟩, [])) ∧
    (createVolume envOk reqNoCaps =
      (Except.error ⟨Code.invalidArgument, "Volume capabilities not provided"⟩, [])) ∧
    (createVolume envOk reqBadCaps =
      (Except.error ⟨Code.invalidArgument, "Volume capabilities not supported"⟩, [])) ∧
    (createVolume envOk reqNoPm =
      (Except.error ⟨Code.invalidArgument, "Missing " ++ ProvisioningMode ++ " parameter"⟩, [])) ∧
    (createVolume envOk reqBadPm =
      (Except.error ⟨Code.invalidArgument,
        "Provisioning mode " ++ "efs" ++ " is not supported. Only Access point provisioning: efs-ap is supported"⟩, [])) ∧
    (createVolume envOk reqNoFs =
      (Except.error ⟨Code.invalidArgument, "Missing " ++ FsId ++ " parameter"⟩, [])) ∧
    (createVolume envOk reqBlankFs =
      (Except.error ⟨Code.invalidArgument, "Parameter " ++ FsId ++ " cannot be empty"⟩, [])) :=
  ⟨(C7_createVolume_validation_order envOk reqNoName "x" "x").1 (by decide),
   (C7_createVolume_validation_order envOk reqNoCaps "x" "x").2.1 (by decide) (by decide),
   (C7_createVolume_validation_order envOk reqBadCaps "x" "x").2.2.1 (by decide) (by decide) (by decide),
   (C7_createVolume_validation_order envOk reqNoPm "x" "x").2.2.2.1 (by decide) (by decide) (by decide) (by decide),
   (C7_createVolume_validation_order envOk reqBadPm "efs" "x").2.2.2.2.1 (by decide) (by decide)
     (by decide) (by decide) (by decide),
   (C7_createVolume_validation_order envOk reqNoFs "x" "x").2.2.2.2.2.1 (by decide) (by decide)
     (by decide) (by decide) (by decide),
   (C7_createVolume_validation_order envOk reqBlankFs "x" "  ").2.2.2.2.2.2 (by decide) (by decide)
     (by decide) (by decide) (by decide) (by decide)⟩

/-- C2: on a request whose earlier validation passes, the
gidRangeStart/gidRangeEnd parameters must be both present or both
absent, each present value must parse as an integer, with gidRangeStart
> 0 and gidRangeEnd > gidRangeStart; every violation is rejected with
InvalidArgument before any collaborator call, and when neither is
present allocation is invoked with the default range 50000‑7000000. -/
theorem C2_gid_range_validation (env : DriverEnv) (req : CreateVolumeRequest) (f v w : String)
    (hname : req.name ≠ "") (hcaps : req.volumeCapabilities ≠ [])
    (hvalid : isValidVolumeCapabilities env.supportedModes req.volumeCapabilities = true)
    (hpm : lookupParam req.parameters ProvisioningMode = some AccessPointMode)
    (hfs : lookupParam req.parameters FsId = some f)
    (hft : trimSpace f ≠ "") :
    (lookupParam req.parameters GidMin = none → lookupParam req.parameters GidMax = some w →
      resultCode (createVolume env req).1 = some Code.invalidArgument ∧ (createVolume env req).2 = []) ∧
    (lookupParam req.parameters GidMin = some v → goAtoi v = none →
      resultCode (createVolume env req).1 = some Code.invalidArgument ∧ (createVolume env req).2 = []) ∧
    (∀ g : Int, lookupParam req.parameters GidMin = some v → goAtoi v = some g → g ≤ 0 →
      resultCode (createVolume env req).1 = some Code.invalidArgument ∧ (createVolume env req).2 = []) ∧
    (∀ g : Int, lookupParam req.parameters GidMin = some v → goAtoi v = some g → 0 < g →
      lookupParam req.parameters GidMax = none →
      resultCode (createVolume env req).1 = some Code.invalidArgument ∧ (createVolume env req).2 = []) ∧
    (∀ g : Int, lookupParam req.parameters GidMin = some v → goAtoi v = some g → 0 < g →
      lookupParam req.parameters GidMax = some w → goAtoi w = none →
      resultCode (createVolume env req).1 = some Code.invalidArgument ∧ (createVolume env req).2 = []) ∧
    (∀ g h : Int, lookupParam req.parameters GidMin = some v → goAtoi v = some g → 0 < g →
      lookupParam req.parameters GidMax = some w → goAtoi w = some h → h ≤ g →
      resultCode (createVolume env req).1 = some Code.invalidArgument ∧ (createVolume env req).2 = []) ∧
    (lookupParam req.parameters GidMin = none → lookupParam req.parameters GidMax = none →
      env.describeFileSystem f = none →
      Event.getNextGid f 50000 7000000 ∈ (createVolume env req).2) := by
  refine ⟨?_, ?_, ?_, ?_, ?_, ?_, ?_⟩
  · intro hmin hmax
    simp [createVolume, validateCreate, parseGidRange, resultCode,
      hname, hcaps, hvalid, hpm, hfs, hft, hmin, hmax]
  · intro hmin hv
    simp [createVolume, validateCreate, parseGidRange, resultCode,
      hname, hcaps, hvalid, hpm, hfs, hft, hmin, hv]
  · intro g hmin hv hle
    simp [createVolume, validateCreate, parseGidRange, resultCode,
      hname, hcaps, hvalid, hpm, hfs, hft, hmin, hv, hle]
  · intro g hmin hv hpos hmax
    have hng : ¬ g ≤ 0 := not_le.mpr hpos
    simp [createVolume, validateCreate, parseGidRange, resultCode,
      hname, hcaps, hvalid, hpm, hfs, hft, hmin, hv, hng, hmax]
  · intro g hmin hv hpos hmax hw
    have hng : ¬ g ≤ 0 := not_le.mpr hpos
    simp [createVolume, validateCreate, parseGidRange, resultCode,
      hname, hcaps, hvalid, hpm, hfs, hft, hmin, hv, hng, hmax, hw]
  · intro g h hmin hv hpos hmax hw hle
    have hng : ¬ g ≤ 0 := not_le.mpr hpos
    simp [createVolume, validateCreate, parseGidRange, resultCode,
      hname, hcaps, hvalid, hpm, hfs, hft, hmin, hv, hng, hmax, hw, hle]
  · intro hmin hmax hdfs
    have hgid : parseGidRange req.parameters = Except.ok (50000, 7000000) := by
      simp [parseGidRange, hmin, hmax, DefaultGidMin, DefaultGidMax]
    have hval := validateCreate_eq env req f 50000 7000000 hname hcaps hvalid hpm hfs hft hgid
    cases hg : env.getNextGid f 50000 7000000 with
    | error e =>
      simp [createVolume, hval, createVolumeExec, hdfs, hg]
    | ok gid =>
      cases hc : env.createAccessPoint req.name (apOptions env req (planFor req f 50000 7000000) gid) with
      | error ce =>
        cases ce <;> simp [createVolume, hval, createVolumeExec, hdfs, hg, hc]
      | ok ap =>
        simp [createVolume, hval, createVolumeExec, hdfs, hg, hc]

/-- Base parameter list whose earlier validation passes. -/
def baseParams : List (String × String) := [(ProvisioningMode, "efs-ap"), (FsId, "fs-1")]

/-- Request with `gidRangeEnd` but no `gidRangeStart`. -/
def reqMaxOnly : CreateVolumeRequest := ⟨"v1", 100, [0], baseParams ++ [(GidMax, "7000")]⟩

/-- Request with an unparseable `gidRangeStart`. -/
def reqMinBad : CreateVolumeRequest := ⟨"v1", 100, [0], baseParams ++ [(GidMin, "abc")]⟩

/-- Request with a non-positive `gidRangeStart`. -/
def reqMinZero : CreateVolumeRequest := ⟨"v1", 100, [0], baseParams ++ [(GidMin, "0")]⟩

/-- Request with `gidRangeStart` but no `gidRangeEnd`. -/
def reqMinOnly : CreateVolumeRequest := ⟨"v1", 100, [0], baseParams ++ [(GidMin, "5")]⟩

/-- Request with an unparseable `gidRangeEnd`. -/
def reqMaxBad : CreateVolumeRequest :=
  ⟨"v1", 100, [0], baseParams ++ [(GidMin, "5"), (GidMax, "xyz")]⟩

/-- Request with `gidRangeEnd` equal to `gidRangeStart`. -/
def reqMaxLe : CreateVolumeRequest :=
  ⟨"v1", 100, [0], baseParams ++ [(GidMin, "5"), (GidMax, "5")]⟩

/-- Request with neither gid-range parameter. -/
def reqNoGid : CreateVolumeRequest := ⟨"v1", 100, [0], baseParams⟩

/-- Witness for C2: every violating combination rejected with
InvalidArgument at concrete requests, and the default range used when
neither parameter is present. -/
theorem C2_witness :
    (resultCode (createVolume envOk reqMaxOnly).1 = some Code.invalidArgument ∧
      (createVolume envOk reqMaxOnly).2 = []) ∧
    (resultCode (createVolume envOk reqMinBad).1 = some Code.invalidArgument ∧
      (createVolume envOk reqMinBad).2 = []) ∧
    (resultCode (createVolume envOk reqMinZero).1 = some Code.invalidArgument ∧
      (createVolume envOk reqMinZero).2 = []) ∧
    (resultCode (createVolume envOk reqMinOnly).1 = some Code.invalidArgument ∧
      (createVolume envOk reqMinOnly).2 = []) ∧
    (resultCode (createVolume envOk reqMaxBad).1 = some Code.invalidArgument ∧
      (createVolume envOk reqMaxBad).2 = []) ∧
    (resultCode (createVolume envOk reqMaxLe).1 = some Code.invalidArgument ∧
      (createVolume envOk reqMaxLe).2 = []) ∧
    Event.getNextGid "fs-1" 50000 7000000 ∈ (createVolume envOk reqNoGid).2 :=
  ⟨(C2_gid_range_validation envOk reqMaxOnly "fs-1" "x" "7000" (by decide) (by decide) (by decide)
      (by decide) (by decide) (by decide)).1 (by decide) (by decide),
   (C2_gid_range_validation envOk reqMinBad "fs-1" "abc" "x" (by decide) (by decide) (by decide)
      (by decide) (by decide) (by decide)).2.1 (by decide) (by decide),
   (C2_gid_range_validation envOk reqMinZero "fs-1" "0" "x" (by decide) (by decide) (by decide)
      (by decide) (by decide) (by decide)).2.2.1 0 (by decide) (by decide) (by decide),
   (C2_gid_range_validation envOk reqMinOnly "fs-1" "5" "x" (by decide) (by decide) (by decide)
      (by decide) (by decide) (by decide)).2.2.2.1 5 (by decide) (by decide) (by decide) (by decide),
   (C2_gid_range_validation envOk reqMaxBad "fs-1" "5" "xyz" (by decide) (by decide) (by decide)
      (by decide) (by decide) (by decide)).2.2.2.2.1 5 (by decide) (by decide) (by decide)
      (by decide) (by decide),
   (C2_gid_range_validation envOk reqMaxLe "fs-1" "5" "5" (by decide) (by decide) (by decide)
      (by decide) (by decide) (by decide)).2.2.2.2.2.1 5 5 (by decide) (by decide) (by decide)
      (by decide) (by decide) (by decide),
   (C2_gid_range_validation envOk reqNoGid "fs-1" "x" "x" (by decide) (by decide) (by decide)
      (by decide) (by decide) (by decide)).2.2.2.2.2.2 (by decide) (by decide) (by decide)⟩

/-- C3: a CreateVolume request that passes validation, on an existing
file system, with a gid allocated and the cloud access-point creation
succeeding with `apId`, responds with volume identifier `fs ++ "::" ++
apId` (decoding to `(fs, "", apId)` for delimiter-free non-empty ids),
the echoed requested capacity, and an empty volume-context map. -/
theorem C3_createVolume_success_response (env : DriverEnv) (req : CreateVolumeRequest)
    (f : String) (gMin gMax gid : Int) (apId : String)
    (hname : req.name ≠ "") (hcaps : req.volumeCapabilities ≠ [])
    (hvalid : isValidVolumeCapabilities env.supportedModes req.volumeCapabilities = true)
    (hpm : lookupParam req.parameters ProvisioningMode = some AccessPointMode)
    (hfs : lookupParam req.parameters FsId = some f)
    (hft : trimSpace f ≠ "")
    (hgid : parseGidRange req.parameters = Except.ok (gMin, gMax))
    (hdfs : env.describeFileSystem f = none)
    (hgn : env.getNextGid f gMin gMax = Except.ok gid)
    (hca : env.createAccessPoint req.name (apOptions env req (planFor req f gMin gMax) gid) =
      Except.ok apId) :
    (createVolume env req).1 =
      Except.ok ⟨⟨req.capacityRequiredBytes, f ++ "::" ++ apId, []⟩⟩ ∧
    (f ≠ "" → ':' ∉ f.data → apId ≠ "" → ':' ∉ apId.data →
      parseVolumeId (f ++ "::" ++ apId) = ParseResult.ok f "" apId) := by
  have hval := validateCreate_eq env req f gMin gMax hname hcaps hvalid hpm hfs hft hgid
  constructor
  · simp [createVolume, hval, createVolumeExec, hdfs, hgn, hca]
  · intro h1 h2 h3 h4
    exact parseVolumeId_encode f apId h1 h3 h2 h4

/-- Request used by the success-path witnesses: supported capability,
provisioning mode `efs-ap` and file system `fs-1`. -/
def reqFull : CreateVolumeRequest := ⟨"v1", 100, [0], baseParams⟩

/-- Witness for C3 at the concrete scenario: file system `fs-1`,
allocated gid 50000, created access point `ap-1`. -/
theorem C3_witness :
    (createVolume envOk reqFull).1 =
      Except.ok ⟨⟨100, "fs-1" ++ "::" ++ "ap-1", []⟩⟩ ∧
    parseVolumeId ("fs-1" ++ "::" ++ "ap-1") = ParseResult.ok "fs-1" "" "ap-1" := by
  have h := C3_createVolume_success_response envOk reqFull "fs-1" 50000 7000000 50000 "ap-1"
    (by decide) (by decide) (by decide) (by decide) (by decide) (by decide) (by decide)
    (by decide) (by decide) (by decide)
  exact ⟨h.1, h.2 (by decide) (by decide) (by decide) (by decide)⟩

/-- C4: when a gid has been allocated and the cloud access-point
creation then fails, CreateVolume performs exactly the collaborator
calls describe, allocate, create, release — a single release of exactly
the allocated gid on the same file system, a single non-retried create
call — and fails with Unauthenticated for AccessDenied, AlreadyExists
for AlreadyExists, and Internal otherwise. -/
theorem C4_createVolume_rollback (env : DriverEnv) (req : CreateVolumeRequest)
    (f : String) (gMin gMax gid : Int) (cerr : CloudErr)
    (hname : req.name ≠ "") (hcaps : req.volumeCapabilities ≠ [])
    (hvalid : isValidVolumeCapabilities env.supportedModes req.volumeCapabilities = true)
    (hpm : lookupParam req.parameters ProvisioningMode = some AccessPointMode)
    (hfs : lookupParam req.parameters FsId = some f)
    (hft : trimSpace f ≠ "")
    (hgid : parseGidRange req.parameters = Except.ok (gMin, gMax))
    (hdfs : env.describeFileSystem f = none)
    (hgn : env.getNextGid f gMin gMax = Except.ok gid)
    (hca : env.createAccessPoint req.name (apOptions env req (planFor req f gMin gMax) gid) =
      Except.error cerr) :
    resultCode (createVolume env req).1 = some (match cerr with
      | CloudErr.accessDenied => Code.unauthenticated
      | CloudErr.alreadyExists => Code.alreadyExists
      | _ => Code.internal) ∧
    (createVolume env req).2 =
      [Event.describeFileSystem f, Event.getNextGid f gMin gMax,
       Event.createAccessPoint req.name (apOptions env req (planFor req f gMin gMax) gid),
       Event.releaseGid f gid] := by
  have hval := validateCreate_eq env req f gMin gMax hname hcaps hvalid hpm hfs hft hgid
  cases cerr <;>
    simp [createVolume, hval, createVolumeExec, hdfs, hgn, hca, resultCode]

/-- Environment in which access-point creation fails with
AlreadyExists. -/
def envApFail : DriverEnv :=
  { envOk with createAccessPoint := fun _ _ => Except.error CloudErr.alreadyExists }

/-- Witness for C4: the AlreadyExists creation failure rolls back the
allocated gid 50000 on `fs-1` and classifies the error. -/
theorem C4_witness :
    resultCode (createVolume envApFail reqFull).1 = some Code.alreadyExists ∧
    (createVolume envApFail reqFull).2 =
      [Event.describeFileSystem "fs-1", Event.getNextGid "fs-1" 50000 7000000,
       Event.createAccessPoint "v1" (apOptions envApFail reqFull (planFor reqFull "fs-1" 50000 7000000) 50000),
       Event.releaseGid "fs-1" 50000] :=
  C4_createVolume_rollback envApFail reqFull "fs-1" 50000 7000000 50000 CloudErr.alreadyExists
    (by decide) (by decide) (by decide) (by decide) (by decide) (by decide) (by decide)
    (by decide) (by decide) (by decide)

/-- C8: on the successful creation path, the access-point options passed
to the Cloud collaborator carry root directory path `basePath ++ "/" ++
("efs-csi-ap" ++ "-" ++ gid ++ "-" ++ uuid)` — where `basePath` is the
empty string when the parameter is absent — and uid and gid both equal
the allocated gid. -/
theorem C8_createVolume_rootdir_and_owner (env : DriverEnv) (req : CreateVolumeRequest)
    (f : String) (gMin gMax gid : Int) (apId : String)
    (hname : req.name ≠ "") (hcaps : req.volumeCapabilities ≠ [])
    (hvalid : isValidVolumeCapabilities env.supportedModes req.volumeCapabilities = true)
    (hpm : lookupParam req.parameters ProvisioningMode = some AccessPointMode)
    (hfs : lookupParam req.parameters FsId = some f)
    (hft : trimSpace f ≠ "")
    (hgid : parseGidRange req.parameters = Except.ok (gMin, gMax))
    (hdfs : env.describeFileSystem f = none)
    (hgn : env.getNextGid f gMin gMax = Except.ok gid)
    (hca : env.createAccessPoint req.name (apOptions env req (planFor req f gMin gMax) gid) =
      Except.ok apId) :
    Event.createAccessPoint req.name (apOptions env req (planFor req f gMin gMax) gid) ∈
      (createVolume env req).2 ∧
    (apOptions env req (planFor req f gMin gMax) gid).directoryPath =
      (lookupParam req.parameters BasePath).getD "" ++ "/" ++
        (RootDirPre ++ "-" ++ toString gid ++ "-" ++ env.uuid) ∧
    (apOptions env req (planFor req f gMin gMax) gid).uid = gid ∧
    (apOptions env req (planFor req f gMin gMax) gid).gid = gid ∧
    (lookupParam req.parameters BasePath = none →
      (apOptions env req (planFor req f gMin gMax) gid).directoryPath =
        "" ++ "/" ++ (RootDirPre ++ "-" ++ toString gid ++ "-" ++ env.uuid)) := by
  have hval := validateCreate_eq env req f gMin gMax hname hcaps hvalid hpm hfs hft hgid
  refine ⟨?_, rfl, rfl, rfl, ?_⟩
  · simp [createVolume, hval, createVolumeExec, hdfs, hgn, hca]
  · intro hb
    simp [apOptions, planFor, hb]

/-- Witness for C8: with no `basePath` parameter and gid 50000 the root
directory passed to the cloud is `/efs-csi-ap-50000-u1` and uid = gid =
50000. -/
theorem C8_witness :
    Event.createAccessPoint "v1" (apOptions envOk reqFull (planFor reqFull "fs-1" 50000 7000000) 50000) ∈
      (createVolume envOk reqFull).2 ∧
    (apOptions envOk reqFull (planFor reqFull "fs-1" 50000 7000000) 50000).directoryPath =
      "" ++ "/" ++ (RootDirPre ++ "-" ++ toString (50000 : Int) ++ "-" ++ "u1") ∧
    (apOptions envOk reqFull (planFor reqFull "fs-1" 50000 7000000) 50000).uid = 50000 ∧
    (apOptions envOk reqFull (planFor reqFull "fs-1" 50000 7000000) 50000).gid = 50000 := by
  have h := C8_createVolume_rootdir_and_owner envOk reqFull "fs-1" 50000 7000000 50000 "ap-1"
    (by decide) (by decide) (by decide) (by decide) (by decide) (by decide) (by decide)
    (by decide) (by decide) (by decide)
  exact ⟨h.1, h.2.2.2.2 (by decide), h.2.2.1, h.2.2.2.1⟩

/-- C10: for a ValidateVolumeCapabilities request with non-empty volume
identifier and capability list, decode failure yields a NotFound error —
while DeleteVolume treats the same decode failure as success — and any
decodable identifier yields a successful response whose Confirmed field
is set exactly when every requested capability is supported. -/
theorem C10_validateVolumeCapabilities_behaviour (env : DriverEnv)
    (req : ValidateVolumeCapabilitiesRequest) (fs sub ap : String)
    (h1 : req.volumeId ≠ "") (h2 : req.volumeCapabilities ≠ []) :
    validateVolumeCapabilities env ParseResult.invalidFormat req =
      Except.error ⟨Code.notFound, "Volume not found"⟩ ∧
    (∃ resp, validateVolumeCapabilities env (ParseResult.ok fs sub ap) req = Except.ok resp ∧
      (resp.confirmed.isSome ↔ ∀ c ∈ req.volumeCapabilities, c ∈ env.supportedModes)) ∧
    (deleteVolume env ParseResult.invalidFormat ⟨req.volumeId⟩).1 = Except.ok () := by
  refine ⟨?_, ?_, ?_⟩
  · simp [validateVolumeCapabilities, h1, h2]
  · by_cases hv : isValidVolumeCapabilities env.supportedModes req.volumeCapabilities = true
    · refine ⟨⟨some req.volumeCapabilities⟩, ?_, ?_⟩
      · simp [validateVolumeCapabilities, h1, h2, hv]
      · simp only [Option.isSome_some, true_iff]
        intro c hc
        have h3 := List.all_eq_true.mp hv c hc
        simpa using h3
    · refine ⟨⟨none⟩, ?_, ?_⟩
      · simp [validateVolumeCapabilities, h1, h2, hv]
      · simp only [Option.isSome_none, Bool.false_eq_true, false_iff]
        intro hall
        apply hv
        apply List.all_eq_true.mpr
        intro c hc
        simpa using hall c hc
  · simp [deleteVolume, h1]

/-- Witness for C10 at a concrete request with one supported
capability. -/
theorem C10_witness :
    validateVolumeCapabilities envOk ParseResult.invalidFormat ⟨"fs-1::ap-1", [0]⟩ =
      Except.error ⟨Code.notFound, "Volume not found"⟩ ∧
    (∃ resp, validateVolumeCapabilities envOk (ParseResult.ok "fs-1" "" "ap-1") ⟨"fs-1::ap-1", [0]⟩ =
        Except.ok resp ∧
      (resp.confirmed.isSome ↔ ∀ c ∈ [0], c ∈ envOk.supportedModes)) ∧
    (deleteVolume envOk ParseResult.invalidFormat ⟨"fs-1::ap-1"⟩).1 = Except.ok () :=
  C10_validateVolumeCapabilities_behaviour envOk ⟨"fs-1::ap-1", [0]⟩ "fs-1" "" "ap-1"
    (by decide) (by decide)

end EfsCsi
